import Mathlib

/-!
Shallow embedding of the kagiyama crate (DanNixon/kagiyama): the readiness
probe (src/readiness_probe.rs) and the watcher HTTP routing, shutdown channel
and server spawning (src/watcher.rs), together with theorems settling the
specification claims about them.
-/

namespace Kagiyama

/-- Association-list model of the `std::collections::HashMap<C, bool>` used by
`ReadinessProbe`, restricted to the operations the crate performs: `insert`
replaces the value when the key is already present and appends the pair
otherwise. The list order is a canonical presentation of the unordered map. -/
def insertAL {C : Type} [DecidableEq C] (m : List (C × Bool)) (k : C) (v : Bool) :
    List (C × Bool) :=
  if m.any (fun kv => decide (kv.1 = k)) then
    m.map (fun kv => if kv.1 = k then (k, v) else kv)
  else
    m ++ [(k, v)]

/-- Key list of the association-list map (the HashMap key set). -/
def keysAL {C : Type} (m : List (C × Bool)) : List C :=
  m.map Prod.fst

/-- State of `ReadinessProbe<C>`: `conditions` mirrors the
`HashMap<C, bool>` behind the `RwLock`, and `up` mirrors the `Gauge<u64>`
(its stored numeric value). -/
@[ext]
structure ReadinessProbe (C : Type) where
  conditions : List (C × Bool)
  up : Nat
deriving DecidableEq, Repr

/-- Model of `ReadinessProbe::is_ready`: true when the condition map is empty,
otherwise the conjunction of all stored condition values. -/
def is_ready {C : Type} (p : ReadinessProbe C) : Bool :=
  if p.conditions.isEmpty then true
  else p.conditions.all (fun kv => kv.2)

/-- Model of `ReadinessProbe::update_up_metric`: store 1 in the gauge when
`is_ready` holds and 0 otherwise. -/
def update_up_metric {C : Type} (p : ReadinessProbe C) : ReadinessProbe C :=
  { p with up := if is_ready p then 1 else 0 }

/-- Model of `ReadinessProbe::default` over a condition universe `univ`
(the list produced by `C::iter()`): every condition present and set to
`false`, gauge default-initialised to 0, then `update_up_metric` is called. -/
def ReadinessProbe.default {C : Type} (univ : List C) : ReadinessProbe C :=
  update_up_metric { conditions := univ.map (fun c => (c, false)), up := 0 }

/-- First critical section of `set_condition_readiness`: the `insert` performed
under the write lock, whose guard is dropped at the end of that statement. -/
def write_map_phase {C : Type} [DecidableEq C] (p : ReadinessProbe C)
    (condition : C) (ready : Bool) : ReadinessProbe C :=
  { p with conditions := insertAL p.conditions condition ready }

/-- Second step of `set_condition_readiness`, performed after the write lock
has been released: recompute the gauge via `update_up_metric` when marking
ready, or store 0 directly when marking not ready. -/
def write_gauge_phase {C : Type} (p : ReadinessProbe C) (ready : Bool) :
    ReadinessProbe C :=
  if ready then update_up_metric p else { p with up := 0 }

/-- Model of `ReadinessProbe::set_condition_readiness`: the map update followed
by the gauge update. -/
def set_condition_readiness {C : Type} [DecidableEq C] (p : ReadinessProbe C)
    (condition : C) (ready : Bool) : ReadinessProbe C :=
  write_gauge_phase (write_map_phase p condition ready) ready

/-- Model of `ReadinessProbe::mark_ready`. -/
def mark_ready {C : Type} [DecidableEq C] (p : ReadinessProbe C) (condition : C) :
    ReadinessProbe C :=
  set_condition_readiness p condition true

/-- Model of `ReadinessProbe::mark_not_ready`. -/
def mark_not_ready {C : Type} [DecidableEq C] (p : ReadinessProbe C) (condition : C) :
    ReadinessProbe C :=
  set_condition_readiness p condition false

/-- Probe states reachable from construction by any sequence of `mark_ready`
and `mark_not_ready` calls. -/
inductive Reachable {C : Type} [DecidableEq C] (univ : List C) :
    ReadinessProbe C → Prop where
  | init : Reachable univ (ReadinessProbe.default univ)
  | ready {p : ReadinessProbe C} (c : C) :
      Reachable univ p → Reachable univ (mark_ready p c)
  | not_ready {p : ReadinessProbe C} (c : C) :
      Reachable univ p → Reachable univ (mark_not_ready p c)

/-- C1: for every ReadinessProbe over any condition set, `is_ready` returns
true iff every tracked condition's value in the mapping is true; in
particular for the empty condition set (`AlwaysReady`, modelled by the
uninhabited type with an empty universe) it returns true. -/
theorem c1_is_ready_iff_all_conditions_true :
    (∀ (C : Type) (p : ReadinessProbe C),
        is_ready p = true ↔ ∀ kv ∈ p.conditions, kv.2 = true) ∧
      is_ready (ReadinessProbe.default (C := Empty) []) = true := by
  constructor
  · intro C p
    unfold is_ready
    by_cases h : p.conditions.isEmpty
    · have hnil : p.conditions = [] := by
        simpa [List.isEmpty_iff] using h
      simp [h, hnil]
    · simp [h, List.all_eq_true]
  · rfl

/-- Changing only the gauge leaves `is_ready` unchanged. -/
theorem is_ready_update_up {C : Type} (p : ReadinessProbe C) :
    is_ready (update_up_metric p) = is_ready p := rfl

/-- The inserted pair is always present after `insertAL`. -/
theorem mem_insertAL_self {C : Type} [DecidableEq C] (m : List (C × Bool))
    (k : C) (v : Bool) : (k, v) ∈ insertAL m k v := by
  unfold insertAL
  by_cases h : m.any (fun kv => decide (kv.1 = k)) = true
  · rw [if_pos h]
    rcases List.any_eq_true.mp h with ⟨kv, hkv, hk⟩
    refine List.mem_map.mpr ⟨kv, hkv, ?_⟩
    simp [of_decide_eq_true hk]
  · rw [if_neg h]
    simp

/-- A probe whose map contains a false condition is not ready. -/
theorem is_ready_false_of_mem_false {C : Type} {p : ReadinessProbe C} {k : C}
    (h : (k, false) ∈ p.conditions) : is_ready p = false := by
  unfold is_ready
  have hne : p.conditions ≠ [] := List.ne_nil_of_mem h
  have hemp : p.conditions.isEmpty = false := by
    simpa [List.isEmpty_iff] using hne
  rw [hemp]
  simp only [if_false, Bool.false_eq_true]
  rw [List.all_eq_false]
  exact ⟨(k, false), h, by simp⟩

/-- After any `set_condition_readiness` call completes, the gauge agrees with
the aggregate readiness of the new map. -/
theorem up_consistent_after_set {C : Type} [DecidableEq C] (p : ReadinessProbe C)
    (c : C) (r : Bool) :
    (set_condition_readiness p c r).up
      = if is_ready (set_condition_readiness p c r) then 1 else 0 := by
  cases r with
  | true =>
    show (update_up_metric (write_map_phase p c true)).up
      = if is_ready (update_up_metric (write_map_phase p c true)) then 1 else 0
    rw [is_ready_update_up]
    rfl
  | false =>
    have hmem : (c, false) ∈ (set_condition_readiness p c false).conditions :=
      mem_insertAL_self p.conditions c false
    rw [is_ready_false_of_mem_false hmem]
    rfl

/-- C2: on every probe state reachable from construction by `mark_ready` and
`mark_not_ready` calls, the gauge `up` is 1 when the conjunction of all
condition values holds and 0 otherwise. -/
theorem c2_up_gauge_invariant {C : Type} [DecidableEq C] {univ : List C}
    {p : ReadinessProbe C} (h : Reachable univ p) :
    p.up = if is_ready p then 1 else 0 := by
  cases h with
  | init =>
    show (update_up_metric { conditions := univ.map (fun c => (c, false)), up := 0 }).up
      = if is_ready
            (update_up_metric { conditions := univ.map (fun c => (c, false)), up := 0 })
          then 1 else 0
    rw [is_ready_update_up]
    rfl
  | ready c _ => exact up_consistent_after_set _ c true
  | not_ready c _ => exact up_consistent_after_set _ c false

/-- Witness for C2 at a concrete two-condition probe. -/
theorem c2_up_gauge_invariant_witness :
    (ReadinessProbe.default (C := Bool) [false, true]).up
      = if is_ready (ReadinessProbe.default (C := Bool) [false, true]) then 1 else 0 :=
  c2_up_gauge_invariant Reachable.init

/-- C5 counterexample: the map update and the gauge update of one
`set_condition_readiness` call happen in two separate critical sections
(the write-lock guard of the `insert` is dropped before `update_up_metric`
runs), and at the intermediate point the mapping is already updated while the
gauge is stale: starting from the fresh one-condition probe and marking the
condition ready, after the first phase `is_ready` computed from the mapping is
already true while the gauge still reads 0, so a concurrent reader of the
aggregate observes a mapping update without the corresponding gauge update. -/
theorem c5_two_phase_counterexample :
    set_condition_readiness (ReadinessProbe.default (C := Unit) [()]) () true
        = write_gauge_phase
            (write_map_phase (ReadinessProbe.default (C := Unit) [()]) () true) true ∧
      is_ready (write_map_phase (ReadinessProbe.default (C := Unit) [()]) () true)
          = true ∧
        (write_map_phase (ReadinessProbe.default (C := Unit) [()]) () true).up = 0 := by
  refine ⟨rfl, by decide, by decide⟩

/-- C5 amended: each call updates the mapping and the gauge in two separate
steps rather than one atomic unit, and the gauge is consistent with the
mapping again once the whole call has completed. -/
theorem c5_two_phase_amended {C : Type} [DecidableEq C] (p : ReadinessProbe C)
    (c : C) (r : Bool) :
    set_condition_readiness p c r
        = write_gauge_phase (write_map_phase p c r) r ∧
      (set_condition_readiness p c r).up
        = if is_ready (set_condition_readiness p c r) then 1 else 0 :=
  ⟨rfl, up_consistent_after_set p c r⟩

/-- Unfolding of `mark_ready` on the condition map. -/
theorem mark_ready_conditions {C : Type} [DecidableEq C] (p : ReadinessProbe C)
    (c : C) : (mark_ready p c).conditions = insertAL p.conditions c true := rfl

/-- Unfolding of `mark_not_ready` on the condition map. -/
theorem mark_not_ready_conditions {C : Type} [DecidableEq C] (p : ReadinessProbe C)
    (c : C) : (mark_not_ready p c).conditions = insertAL p.conditions c false := rfl

/-- Readiness only depends on the condition map. -/
theorem is_ready_congr {C : Type} {p q : ReadinessProbe C}
    (h : p.conditions = q.conditions) : is_ready p = is_ready q := by
  unfold is_ready
  rw [h]

/-- Inserting `true` into a map presented over `univ` toggles exactly the
entries for the inserted key. -/
theorem insertAL_map_true {C : Type} [DecidableEq C] (univ : List C)
    (f : C → Bool) {k : C} (hk : k ∈ univ) :
    insertAL (univ.map fun c => (c, f c)) k true
      = univ.map fun c => (c, f c || decide (c = k)) := by
  unfold insertAL
  have hany : (univ.map fun c => (c, f c)).any (fun kv => decide (kv.1 = k)) = true := by
    rw [List.any_eq_true]
    exact ⟨(k, f k), List.mem_map.mpr ⟨k, hk, rfl⟩, by simp⟩
  rw [if_pos hany, List.map_map]
  apply List.map_congr_left
  intro a _
  by_cases h : a = k
  · subst h
    simp
  · simp [h]

/-- The condition map after a sequence of `mark_ready` calls is the fold of
the bare inserts. -/
theorem foldl_mark_ready_conditions {C : Type} [DecidableEq C] (cs : List C)
    (p : ReadinessProbe C) :
    (cs.foldl mark_ready p).conditions
      = cs.foldl (fun m c => insertAL m c true) p.conditions := by
  induction cs generalizing p with
  | nil => rfl
  | cons a cs ih =>
    rw [List.foldl_cons, List.foldl_cons, ih]
    rfl

/-- Folding `insert true` over a map presented over `univ` marks exactly the
keys occurring in the call sequence. -/
theorem foldl_insertAL_true {C : Type} [DecidableEq C] (univ : List C) :
    ∀ (cs : List C) (f : C → Bool), (∀ c ∈ cs, c ∈ univ) →
      cs.foldl (fun m c => insertAL m c true) (univ.map fun c => (c, f c))
        = univ.map fun c => (c, f c || decide (c ∈ cs))
  | [], f, _ => by simp
  | a :: cs, f, hcs => by
    rw [List.foldl_cons, insertAL_map_true univ f (hcs a (List.mem_cons_self a cs)),
      foldl_insertAL_true univ cs (fun c => f c || decide (c = a))
        (fun c hc => hcs c (List.mem_cons_of_mem a hc))]
    apply List.map_congr_left
    intro c _
    by_cases h1 : c = a <;> by_cases h2 : c ∈ cs <;>
      simp [List.mem_cons, h1, h2]

/-- C3: over a nonempty condition set, starting from the freshly constructed
probe and applying any sequence of `mark_ready` calls, the probe is ready
exactly when every condition occurs in the sequence: `is_ready` stays false
until every condition has been marked ready at least once and becomes true
at the call that marks the last remaining unmet condition. -/
theorem c3_ready_iff_every_condition_marked {C : Type} [DecidableEq C]
    (univ : List C) (hu : ∀ c : C, c ∈ univ) (hne : univ ≠ []) (cs : List C) :
    is_ready (cs.foldl mark_ready (ReadinessProbe.default univ)) = true
      ↔ ∀ c : C, c ∈ cs := by
  have hcond : (cs.foldl mark_ready (ReadinessProbe.default univ)).conditions
      = univ.map fun c => (c, decide (c ∈ cs)) := by
    rw [foldl_mark_ready_conditions]
    have hdef : (ReadinessProbe.default univ).conditions
        = univ.map fun c => (c, false) := rfl
    rw [hdef, foldl_insertAL_true univ cs (fun _ => false) (fun c _ => hu c)]
    simp
  unfold is_ready
  rw [hcond]
  have hemp : (univ.map fun c => (c, decide (c ∈ cs))).isEmpty = false := by
    simp [List.isEmpty_iff, List.map_eq_nil_iff, hne]
  rw [hemp]
  simp only [Bool.false_eq_true, if_false]
  rw [List.all_eq_true]
  constructor
  · intro h c
    have := h (c, decide (c ∈ cs)) (List.mem_map.mpr ⟨c, hu c, rfl⟩)
    simpa using this
  · intro h kv hkv
    rcases List.mem_map.mp hkv with ⟨c, _, rfl⟩
    simpa using h c

/-- Witness for C3 over the two-condition set modelled by `Bool`. -/
theorem c3_ready_iff_every_condition_marked_witness :
    is_ready (([false, true] : List Bool).foldl mark_ready
        (ReadinessProbe.default [false, true])) = true :=
  (c3_ready_iff_every_condition_marked [false, true] (by decide) (by decide)
    [false, true]).mpr (by decide)

/-- Inserting over an existing key leaves the key list unchanged. -/
theorem keysAL_insertAL_of_mem {C : Type} [DecidableEq C] (m : List (C × Bool))
    (k : C) (v : Bool) (h : k ∈ keysAL m) : keysAL (insertAL m k v) = keysAL m := by
  unfold insertAL
  have hany : m.any (fun kv => decide (kv.1 = k)) = true := by
    rw [List.any_eq_true]
    rcases List.mem_map.mp h with ⟨kv, hkv, hk⟩
    exact ⟨kv, hkv, by simp [hk]⟩
  rw [if_pos hany]
  unfold keysAL
  rw [List.map_map]
  apply List.map_congr_left
  intro kv _
  by_cases hkk : kv.1 = k
  · simp [hkk]
  · simp [hkk]

/-- C8: on every reachable probe state, the key set of the condition map is
exactly the condition universe fixed at construction: `mark_ready` and
`mark_not_ready` only toggle values and never add or remove keys. -/
theorem c8_key_set_invariant {C : Type} [DecidableEq C] {univ : List C}
    {p : ReadinessProbe C} (hu : ∀ c : C, c ∈ univ) (h : Reachable univ p) :
    keysAL p.conditions = univ := by
  induction h with
  | init =>
    show keysAL (univ.map fun c => (c, false)) = univ
    unfold keysAL
    rw [List.map_map]
    conv_rhs => rw [← List.map_id univ]
    apply List.map_congr_left
    intro c _
    rfl
  | ready c _ ih =>
    rw [mark_ready_conditions, keysAL_insertAL_of_mem _ c true (by rw [ih]; exact hu c), ih]
  | not_ready c _ ih =>
    rw [mark_not_ready_conditions,
      keysAL_insertAL_of_mem _ c false (by rw [ih]; exact hu c), ih]

/-- Witness for C8 after one marking call on a concrete two-condition probe. -/
theorem c8_key_set_invariant_witness :
    keysAL (mark_ready (ReadinessProbe.default (C := Bool) [false, true])
        false).conditions = [false, true] :=
  c8_key_set_invariant (by decide) (Reachable.ready false Reachable.init)

/-- Inserting the same key and value twice is the same as inserting once. -/
theorem insertAL_idem {C : Type} [DecidableEq C] (m : List (C × Bool)) (k : C)
    (v : Bool) : insertAL (insertAL m k v) k v = insertAL m k v := by
  by_cases h : m.any (fun kv => decide (kv.1 = k)) = true
  · unfold insertAL
    rw [if_pos h]
    have hany2 : (m.map fun kv => if kv.1 = k then (k, v) else kv).any
        (fun kv => decide (kv.1 = k)) = true := by
      rcases List.any_eq_true.mp h with ⟨kv, hkv, hk⟩
      rw [List.any_eq_true]
      refine ⟨(k, v), List.mem_map.mpr ⟨kv, hkv, ?_⟩, by simp⟩
      simp [of_decide_eq_true hk]
    rw [if_pos hany2, List.map_map]
    apply List.map_congr_left
    intro kv _
    by_cases hkk : kv.1 = k
    · simp [hkk]
    · simp [hkk]
  · unfold insertAL
    rw [if_neg h]
    have hany2 : ((m ++ [(k, v)]).any (fun kv => decide (kv.1 = k))) = true := by
      rw [List.any_eq_true]
      exact ⟨(k, v), by simp, by simp⟩
    rw [if_pos hany2, List.map_append]
    have h1 : m.map (fun kv => if kv.1 = k then (k, v) else kv) = m := by
      conv_rhs => rw [← List.map_id m]
      apply List.map_congr_left
      intro kv hkv
      have hkk : ¬kv.1 = k := by
        intro hk
        apply h
        rw [List.any_eq_true]
        exact ⟨kv, hkv, by simp [hk]⟩
      simp [hkk]
    rw [h1]
    simp

/-- C10: `mark_ready` and `mark_not_ready` are idempotent: repeating either
call on the same condition leaves the whole probe state, hence the condition
mapping, `is_ready` and the `up` gauge, unchanged. -/
theorem c10_mark_calls_idempotent {C : Type} [DecidableEq C]
    (p : ReadinessProbe C) (c : C) :
    mark_ready (mark_ready p c) c = mark_ready p c ∧
      mark_not_ready (mark_not_ready p c) c = mark_not_ready p c := by
  constructor
  · have hc : (mark_ready (mark_ready p c) c).conditions
        = (mark_ready p c).conditions := by
      show insertAL (insertAL p.conditions c true) c true
        = insertAL p.conditions c true
      exact insertAL_idem p.conditions c true
    apply ReadinessProbe.ext
    · exact hc
    · have h1 : (mark_ready (mark_ready p c) c).up
          = if is_ready (mark_ready (mark_ready p c) c) then 1 else 0 :=
        up_consistent_after_set (mark_ready p c) c true
      have h2 : (mark_ready p c).up
          = if is_ready (mark_ready p c) then 1 else 0 :=
        up_consistent_after_set p c true
      rw [h1, h2, is_ready_congr hc]
  · have hc : (mark_not_ready (mark_not_ready p c) c).conditions
        = (mark_not_ready p c).conditions := by
      show insertAL (insertAL p.conditions c false) c false
        = insertAL p.conditions c false
      exact insertAL_idem p.conditions c false
    apply ReadinessProbe.ext
    · exact hc
    · rfl

/-- Response body model: text bodies, the serde JSON serialisation of the
condition map (a JSON object from condition names to booleans), and the
metrics exposition dump, abstracted by the gauge value it renders. -/
inductive HttpBody where
  | text (s : String)
  | json (fields : List (String × Bool))
  | metricsDump (up : Nat)
deriving DecidableEq, Repr

/-- Model of the hyper responses built in `Watcher::start_server`. -/
structure HttpResponse where
  status : Nat
  contentType : String
  body : HttpBody
deriving DecidableEq, Repr

/-- Model of the request handler closure in `Watcher::start_server`: the match
on `req.uri().path()`. `condName` is the serde serialisation of a condition
identifier (the enum variant name). -/
def handle_request {C : Type} (condName : C → String) (p : ReadinessProbe C)
    (path : String) : HttpResponse :=
  if path = "/metrics" then
    { status := 200, contentType := "text/plain", body := .metricsDump p.up }
  else if path = "/ready" then
    { status := if is_ready p then 200 else 503
      contentType := "application/json"
      body := .json (p.conditions.map fun kv => (condName kv.1, kv.2)) }
  else if path = "/alive" then
    { status := 200, contentType := "text/plain", body := .text "alive" }
  else
    { status := 404, contentType := "text/plain", body := .text "Not found" }

/-- C4: a request on path /ready is answered with status 200 when `is_ready`
holds at handling time and 503 otherwise, and its body is the JSON object
mapping each condition name to its current boolean value in the mapping. -/
theorem c4_ready_route {C : Type} (condName : C → String) (p : ReadinessProbe C) :
    (handle_request condName p "/ready").status
        = (if is_ready p then 200 else 503) ∧
      (handle_request condName p "/ready").body
        = HttpBody.json (p.conditions.map fun kv => (condName kv.1, kv.2)) := by
  constructor
  · rfl
  · rfl

/-- C9: path /alive is always answered 200 text/plain with body alive,
regardless of readiness, and every path other than /metrics, /ready and
/alive is answered 404 text/plain with body Not found. -/
theorem c9_alive_and_catch_all {C : Type} (condName : C → String)
    (p : ReadinessProbe C) :
    handle_request condName p "/alive"
        = { status := 200, contentType := "text/plain", body := .text "alive" } ∧
      ∀ path : String, path ≠ "/metrics" → path ≠ "/ready" → path ≠ "/alive" →
        handle_request condName p path
          = { status := 404, contentType := "text/plain", body := .text "Not found" } := by
  constructor
  · rfl
  · intro path h1 h2 h3
    simp [handle_request, h1, h2, h3]

/-- Witness for C9 at a concrete probe, on /alive and on an unknown path. -/
theorem c9_alive_and_catch_all_witness :
    handle_request (fun _ : Unit => "c") (ReadinessProbe.default [()]) "/alive"
        = { status := 200, contentType := "text/plain", body := .text "alive" } ∧
      handle_request (fun _ : Unit => "c") (ReadinessProbe.default [()]) "/nope"
        = { status := 404, contentType := "text/plain", body := .text "Not found" } :=
  ⟨(c9_alive_and_catch_all (fun _ => "c") (ReadinessProbe.default [()])).1,
    (c9_alive_and_catch_all (fun _ => "c") (ReadinessProbe.default [()])).2 "/nope"
      (by decide) (by decide) (by decide)⟩

/-- Model of `tokio::sync::broadcast::Sender<()>`: what the claims need is the
number of currently subscribed receivers. -/
structure BroadcastSender where
  receiverCount : Nat
deriving DecidableEq, Repr

/-- Model of `broadcast::Sender::subscribe`, as called at the top of
`Watcher::start_server`. -/
def BroadcastSender.subscribe (s : BroadcastSender) : BroadcastSender :=
  { receiverCount := s.receiverCount + 1 }

/-- Model of `broadcast::Sender::send(())`: succeeds with the number of
receivers the value was sent to when at least one receiver is subscribed,
and fails with a send error when there are none. -/
def BroadcastSender.send (s : BroadcastSender) : Except String Nat :=
  if s.receiverCount = 0 then .error "channel closed" else .ok s.receiverCount

/-- State of `Watcher<C>` relevant to the claims: the shared readiness probe
and the termination broadcast channel. -/
structure Watcher (C : Type) where
  readiness_probe : ReadinessProbe C
  termination_signal : BroadcastSender
deriving DecidableEq, Repr

/-- Model of `Watcher::stop_server`: match on the send result, mapping success
to `Ok(())` and the send error to an error return; the watcher state is left
untouched either way. -/
def stop_server {C : Type} (w : Watcher C) : Except String Unit × Watcher C :=
  match w.termination_signal.send with
  | .ok _ => (.ok (), w)
  | .error e => (.error e, w)

/-- C7: `stop_server` succeeds exactly when at least one server instance is
subscribed to the termination channel, errors exactly when there are no
subscribers, and in both cases returns to the caller without changing the
watcher state. -/
theorem c7_stop_server_result {C : Type} (w : Watcher C) :
    ((stop_server w).1.isOk = true
        ↔ 0 < w.termination_signal.receiverCount) ∧
      (stop_server w).2 = w := by
  constructor
  · unfold stop_server BroadcastSender.send
    rcases Nat.eq_zero_or_pos w.termination_signal.receiverCount with h | h
    · simp [h]
      rfl
    · have h0 : ¬w.termination_signal.receiverCount = 0 := Nat.pos_iff_ne_zero.mp h
      simp [h0, h]
      rfl
  · unfold stop_server
    cases w.termination_signal.send <;> rfl

/-- Handle to the server task spawned by `start_server` (the data the spawned
future captures that the claims need: the bind address). -/
structure ServerTask where
  addr : Nat
deriving DecidableEq, Repr

/-- Outcome of running a spawned tokio task to completion. -/
inductive TaskOutcome where
  | completed
  | panicked (msg : String)
deriving DecidableEq, Repr

/-- Model of `Watcher::start_server`: it subscribes to the termination channel
and returns `Ok` of the join handle of the freshly spawned server task,
unconditionally: binding the listener happens later, inside the spawned task,
so no bind outcome influences the return value. -/
def start_server {C : Type} (w : Watcher C) (addr : Nat) :
    Except String ServerTask × Watcher C :=
  (.ok { addr := addr },
    { w with termination_signal := w.termination_signal.subscribe })

/-- Model of the body of the spawned server task: `hyper::Server::bind` panics
when binding the address fails (`bindOk` says which addresses bind
successfully); otherwise the server runs until shutdown and the task
completes. -/
def server_task_run (bindOk : Nat → Bool) (t : ServerTask) : TaskOutcome :=
  if bindOk t.addr then .completed else .panicked "bind failure"

/-- Fixed concrete watcher used by the counterexamples. -/
def watcher0 : Watcher Unit :=
  { readiness_probe := ReadinessProbe.default [()], termination_signal := { receiverCount := 0 } }

/-- C6 counterexample: for an address whose bind always fails, `start_server`
still returns `Ok` with the join handle of the spawned task, so the bind
failure is not returned to the caller as a startup error; it only occurs
later, as a panic inside the spawned task. -/
theorem c6_bind_failure_counterexample :
    (start_server watcher0 8080).1 = Except.ok { addr := 8080 } ∧
      server_task_run (fun _ => false) { addr := 8080 }
        = TaskOutcome.panicked "bind failure" :=
  ⟨rfl, rfl⟩

/-- C6 amended: `start_server` always returns `Ok` with the join handle of the
spawned server task; when binding the address fails, the failure surfaces as
a panic of that spawned task (observable only through the join handle), not
as an error return of `start_server` itself. -/
theorem c6_bind_failure_amended {C : Type} (w : Watcher C) (addr : Nat)
    (bindOk : Nat → Bool) :
    (start_server w addr).1 = Except.ok { addr := addr } ∧
      (bindOk addr = false →
        server_task_run bindOk { addr := addr }
          = TaskOutcome.panicked "bind failure") := by
  refine ⟨rfl, fun h => ?_⟩
  unfold server_task_run
  simp [h]

/-- Witness for the amended C6 at a concrete watcher, address and network
environment. -/
theorem c6_bind_failure_amended_witness :
    (start_server watcher0 3).1 = Except.ok { addr := 3 } ∧
      server_task_run (fun _ => false) { addr := 3 }
        = TaskOutcome.panicked "bind failure" :=
  ⟨(c6_bind_failure_amended watcher0 3 (fun _ => false)).1,
    (c6_bind_failure_amended watcher0 3 (fun _ => false)).2 rfl⟩

end Kagiyama
